import Mathlib

/-!
Verification of the token-lifecycle and identity-resolution core of the
gin-boilerplate repository (doko89/ginfinity), shallowly embedded in Lean 4.

Conventions of the embedding:
* Go `time.Time` values are modelled as `Int` unix seconds (`time.Duration`
  as a number of seconds); `time.Now()` is an explicit `now : Int` argument.
* `uuid.New().String()` is an explicit fresh-identifier argument.
* Strings are ASCII in all inputs of interest, so Go `len` (bytes) is the
  character count; the Go string functions the code calls (`strings.ToLower`,
  `strings.TrimSpace`, `strings.Contains`, `len`, byte truncation) are
  modelled over the character list so kernel reduction can evaluate them.
* A JWT is modelled symbolically: a `SignedToken` carries the header
  algorithm, the claims, and a MAC value; HMAC is an ideal deterministic MAC,
  so the MAC value is the pair (key, signed payload) and verification is
  equality with the recomputed MAC. Serialization of a JWT is injective, so
  equality of `SignedToken` values models equality of the token strings.
* bcrypt (golang.org/x/crypto/bcrypt, current releases) is modelled as an
  ideal salted hash: `GenerateFromPassword` rejects passwords longer than 72
  bytes with `ErrPasswordTooLong` and is otherwise injective on the password;
  `CompareHashAndPassword` truncates the presented password to 72 bytes.
* The PostgreSQL tables behind `userRepository` and `tokenRepository` are
  association lists; the gorm `uniqueIndex` on `users.email` and on
  `tokens.refresh_token` makes the corresponding `Create` fail on a
  duplicate. Repository calls are otherwise infallible; where a claim is
  about a transport-level failure of a repository call, the use case takes
  an explicit fault flag for that one call (`revokeErr`), a failed call
  leaving the table unchanged.
* Each use case `Execute` returns its outcome together with the final
  database state, so frame conditions ("the store is unchanged") are
  statable.
-/

/-! ## internal/domain/entity (user.go): roles, providers, the User record -/

inductive entity.Role
  | USER
  | ADMIN
deriving DecidableEq, Repr

def entity.Role.str : entity.Role → String
  | .USER => "USER"
  | .ADMIN => "ADMIN"

inductive entity.Provider
  | LOCAL
  | GOOGLE
deriving DecidableEq, Repr

/-- Go `strings.ToLower` (ASCII model), computed on the character list so
that kernel reduction can evaluate it on literals. -/
def strings.ToLower (s : String) : String :=
  String.mk (s.data.map Char.toLower)

/-- Go `strings.TrimSpace` (ASCII model): strip leading and trailing
whitespace. -/
def strings.TrimSpace (s : String) : String :=
  String.mk (((s.data.dropWhile Char.isWhitespace).reverse.dropWhile
    Char.isWhitespace).reverse)

/-- Go `strings.Contains` for the single-character needles ("@", ".") the
code uses. -/
def strings.Contains (s : String) (c : Char) : Bool :=
  s.data.contains c

/-- Go `len` on a string: bytes, which are characters in the ASCII model. -/
def stringLen (s : String) : Nat :=
  s.data.length

/-- The first `n` bytes of a string (ASCII model). -/
def stringTake (s : String) (n : Nat) : String :=
  String.mk (s.data.take n)

/-- The bcrypt hash of a password: ideal model of the `$2a$...` hash string
(cost, salt and key schedule of the at most 72 password bytes). -/
structure bcrypt.Hash where
  cost : Nat
  key : String
deriving DecidableEq, Repr

inductive bcrypt.Err
  | passwordTooLong
deriving DecidableEq, Repr

/-- `bcrypt.GenerateFromPassword`: errors on passwords over 72 bytes
(`ErrPasswordTooLong`), otherwise derives the hash from the password. -/
def bcrypt.GenerateFromPassword (password : String) (cost : Nat) :
    Except bcrypt.Err bcrypt.Hash :=
  if stringLen password > 72 then .error .passwordTooLong
  else .ok { cost := cost, key := password }

/-- `bcrypt.CompareHashAndPassword`: `true` iff the call returns a nil error.
The presented password is truncated to 72 bytes by the key schedule. -/
def bcrypt.CompareHashAndPassword (hash : bcrypt.Hash) (password : String) : Bool :=
  hash.key == stringTake password 72

/-- `entity.User` (src/unnamed/part_010). `Password` holds the bcrypt hash
for LOCAL users and is nil for pure OAuth users. -/
structure entity.User where
  id : String
  email : String
  password : Option bcrypt.Hash
  name : String
  role : entity.Role
  provider : entity.Provider
  providerID : Option String
  avatar : Option String
  emailVerified : Bool
  createdAt : Int
  updatedAt : Int
deriving DecidableEq, Repr

/-- `entity.NewUser`: lowercases and trims the email, trims the name,
provider LOCAL, email not verified. `uuid` and `now` are the effects of
`uuid.New()` and `time.Now()`. -/
def entity.NewUser (uuid : String) (now : Int) (email name : String)
    (role : entity.Role) : entity.User :=
  { id := uuid
    email := strings.ToLower (strings.TrimSpace email)
    password := none
    name := strings.TrimSpace name
    role := role
    provider := .LOCAL
    providerID := none
    avatar := none
    emailVerified := false
    createdAt := now
    updatedAt := now }

/-- `entity.NewOAuthUser`: provider-assigned external id, verified email. -/
def entity.NewOAuthUser (uuid : String) (now : Int) (email name providerID : String)
    (provider : entity.Provider) (avatar : Option String) : entity.User :=
  { id := uuid
    email := strings.ToLower (strings.TrimSpace email)
    password := none
    name := strings.TrimSpace name
    role := .USER
    provider := provider
    providerID := some providerID
    avatar := avatar
    emailVerified := true
    createdAt := now
    updatedAt := now }

/-- `User.IsValidEmail`: contains "@" and ".", length in (5, 255]. -/
def entity.User.IsValidEmail (u : entity.User) : Bool :=
  strings.Contains u.email '@' && strings.Contains u.email '.' &&
    stringLen u.email > 5 && stringLen u.email ≤ 255

inductive entity.ValidationError
  | emailRequired
  | invalidEmailFormat
  | nameRequired
  | nameLength
  | passwordRequired
  | providerIDRequired
deriving DecidableEq, Repr

/-- `User.Validate` (src/unnamed/part_010 lines 70-98), checks in source
order. The model cannot hold an empty-string password hash, so the Go test
`u.Password == nil || *u.Password == ""` is `u.password = none`. -/
def entity.User.Validate (u : entity.User) : Except entity.ValidationError Unit :=
  if u.email = "" then .error .emailRequired
  else if ¬ u.IsValidEmail then .error .invalidEmailFormat
  else if u.name = "" then .error .nameRequired
  else if stringLen u.name < 2 ∨ stringLen u.name > 100 then .error .nameLength
  else if u.provider = .LOCAL ∧ u.password = none then .error .passwordRequired
  else if u.provider ≠ .LOCAL ∧ (u.providerID = none ∨ u.providerID = some "") then
    .error .providerIDRequired
  else .ok ()

/-- `User.IsOAuthUser`. -/
def entity.User.IsOAuthUser (u : entity.User) : Bool :=
  u.provider ≠ .LOCAL

/-- `User.SetPassword`: only effective for LOCAL-provider users. -/
def entity.User.SetPassword (u : entity.User) (now : Int) (hashed : bcrypt.Hash) :
    entity.User :=
  if u.provider = .LOCAL then { u with password := some hashed, updatedAt := now }
  else u

/-! ## internal/domain/service (token_service.go): JWT issue and validation -/

inductive service.TokenType
  | access
  | refresh
deriving DecidableEq, Repr

/-- `service.TokenClaims`: the custom claims plus the registered claims the
code sets (`ExpiresAt`, `IssuedAt`, `NotBefore`, `Subject`). -/
structure service.TokenClaims where
  userID : String
  email : String
  role : String
  tokenType : service.TokenType
  expiresAt : Int
  issuedAt : Int
  notBefore : Int
  subject : String
deriving DecidableEq, Repr

/-- The `alg` of a JWT header. HS256/384/512 are `jwt.SigningMethodHMAC`
methods; `RS256` and the unsigned `alg:none` are not. -/
inductive service.Alg
  | HS256
  | HS384
  | HS512
  | RS256
  | noneAlg
deriving DecidableEq, Repr

def service.Alg.isHMAC : service.Alg → Bool
  | .HS256 | .HS384 | .HS512 => true
  | .RS256 | .noneAlg => false

/-- Ideal deterministic MAC: the MAC value determines (and is determined by)
the key and the signed payload (header algorithm and claims). -/
def service.macSign (key : String) (alg : service.Alg)
    (claims : service.TokenClaims) : String × service.Alg × service.TokenClaims :=
  (key, alg, claims)

/-- A serialized JWT, as handed to clients and presented back: header
algorithm, claims, signature. Serialization is injective, so equality of
`SignedToken` values is equality of token strings. -/
structure service.SignedToken where
  alg : service.Alg
  claims : service.TokenClaims
  sig : String × service.Alg × service.TokenClaims
deriving DecidableEq, Repr

structure service.tokenService where
  secretKey : String
  accessExpiry : Int
  refreshExpiry : Int
deriving DecidableEq, Repr

/-- `tokenService.GenerateAccessToken` (src/unnamed/part_011 lines 135-151):
HS256 token, kind `access`, exp = now + accessExpiry, iat = nbf = now. -/
def service.tokenService.GenerateAccessToken (s : service.tokenService)
    (now : Int) (userID email role : String) : service.SignedToken :=
  let claims : service.TokenClaims :=
    { userID := userID, email := email, role := role, tokenType := .access
      expiresAt := now + s.accessExpiry, issuedAt := now, notBefore := now
      subject := userID }
  { alg := .HS256, claims := claims, sig := service.macSign s.secretKey .HS256 claims }

/-- `tokenService.GenerateRefreshToken` (src/unnamed/part_011 lines 154-170). -/
def service.tokenService.GenerateRefreshToken (s : service.tokenService)
    (now : Int) (userID email role : String) : service.SignedToken :=
  let claims : service.TokenClaims :=
    { userID := userID, email := email, role := role, tokenType := .refresh
      expiresAt := now + s.refreshExpiry, issuedAt := now, notBefore := now
      subject := userID }
  { alg := .HS256, claims := claims, sig := service.macSign s.secretKey .HS256 claims }

inductive service.TokenError
  | unexpectedSigningMethod
  | invalidSignature
  | expired
  | notYetValid
  | invalidTokenType
deriving DecidableEq, Repr

/-- `tokenService.validateToken` (src/unnamed/part_011 lines 183-205): the
keyfunc rejects non-HMAC methods; `jwt.ParseWithClaims` then verifies the
signature and the registered claims (valid iff now < exp and now ≥ nbf,
jwt/v5 with no leeway); finally the token kind must match. -/
def service.tokenService.validateToken (s : service.tokenService) (now : Int)
    (tokenString : service.SignedToken) (expectedType : service.TokenType) :
    Except service.TokenError service.TokenClaims :=
  if ¬ tokenString.alg.isHMAC then .error .unexpectedSigningMethod
  else if tokenString.sig ≠ service.macSign s.secretKey tokenString.alg tokenString.claims then
    .error .invalidSignature
  else if ¬ (now < tokenString.claims.expiresAt) then .error .expired
  else if now < tokenString.claims.notBefore then .error .notYetValid
  else if tokenString.claims.tokenType ≠ expectedType then .error .invalidTokenType
  else .ok tokenString.claims

def service.tokenService.ValidateAccessToken (s : service.tokenService) (now : Int)
    (tokenString : service.SignedToken) : Except service.TokenError service.TokenClaims :=
  s.validateToken now tokenString .access

def service.tokenService.ValidateRefreshToken (s : service.tokenService) (now : Int)
    (tokenString : service.SignedToken) : Except service.TokenError service.TokenClaims :=
  s.validateToken now tokenString .refresh

/-- `tokenService.GetTokenExpiration` (seconds). -/
def service.tokenService.GetTokenExpiration (s : service.tokenService)
    (tokenType : service.TokenType) : Int :=
  match tokenType with
  | .access => s.accessExpiry
  | .refresh => s.refreshExpiry

/-! ## internal/domain/service (password_service.go) -/

structure service.passwordService where
  cost : Nat
deriving DecidableEq, Repr

inductive service.PasswordError
  | tooShort
  | tooLong
  | bcryptFailure
deriving DecidableEq, Repr

/-- `passwordService.ValidatePassword`: length in [8, 128]. -/
def service.passwordService.ValidatePassword (_s : service.passwordService)
    (password : String) : Except service.PasswordError Unit :=
  if stringLen password < 8 then .error .tooShort
  else if stringLen password > 128 then .error .tooLong
  else .ok ()

/-- `passwordService.HashPassword`: validate, then bcrypt. -/
def service.passwordService.HashPassword (s : service.passwordService)
    (password : String) : Except service.PasswordError bcrypt.Hash :=
  match s.ValidatePassword password with
  | .error e => .error e
  | .ok _ =>
    match bcrypt.GenerateFromPassword password s.cost with
    | .error _ => .error .bcryptFailure
    | .ok h => .ok h

/-- `passwordService.VerifyPassword`: `true` iff
`bcrypt.CompareHashAndPassword` returns a nil error. -/
def service.passwordService.VerifyPassword (_s : service.passwordService)
    (password : String) (hash : bcrypt.Hash) : Bool :=
  bcrypt.CompareHashAndPassword hash password

/-! ## internal/domain/entity/token.go: the refresh-session record

`ID`, `CreatedAt` and `UpdatedAt` of `entity.Token` are never read by the
core logic and are not modelled. -/

structure entity.Token where
  userID : String
  refreshToken : service.SignedToken
  expiresAt : Int
deriving DecidableEq, Repr

/-- `entity.NewToken`. -/
def entity.NewToken (userID : String) (refreshToken : service.SignedToken)
    (expiresAt : Int) : entity.Token :=
  { userID := userID, refreshToken := refreshToken, expiresAt := expiresAt }


/-! ## internal/infrastructure/persistence/postgres: the two tables

The `users` table has a unique index on `email`; the `tokens` table has a
unique index on `refresh_token`, so the respective `Create` fails on a
duplicate. SQL string comparison (`WHERE email = ?`) is byte equality. -/

abbrev postgres.UserDB := List entity.User

abbrev postgres.TokenDB := List entity.Token

/-- `userRepository.Create`: INSERT, failing on the unique email index. -/
def postgres.userRepository.Create (db : postgres.UserDB) (u : entity.User) :
    Except Unit postgres.UserDB :=
  if db.any (fun v => decide (v.email = u.email)) then .error ()
  else .ok (db ++ [u])

/-- `userRepository.FindByID`: first row with this id, nil when absent. -/
def postgres.userRepository.FindByID (db : postgres.UserDB) (id : String) :
    Option entity.User :=
  db.find? (fun v => decide (v.id = id))

/-- `userRepository.FindByEmail`: first row whose email column equals the
given string (no normalization here; `WHERE email = ?`). -/
def postgres.userRepository.FindByEmail (db : postgres.UserDB) (email : String) :
    Option entity.User :=
  db.find? (fun v => decide (v.email = email))

/-- `userRepository.FindByProviderID`: `WHERE provider = ? AND provider_id = ?`. -/
def postgres.userRepository.FindByProviderID (db : postgres.UserDB)
    (provider : entity.Provider) (providerID : String) : Option entity.User :=
  db.find? (fun v => decide (v.provider = provider ∧ v.providerID = some providerID))

/-- `userRepository.Update`: gorm `Save` by primary key. -/
def postgres.userRepository.Update (db : postgres.UserDB) (u : entity.User) :
    postgres.UserDB :=
  db.map (fun v => if v.id = u.id then u else v)

/-- `userRepository.EmailExists` (user_repository.go lines 108-117):
`SELECT count(*) WHERE email = ?` on the raw argument. -/
def postgres.userRepository.EmailExists (db : postgres.UserDB) (email : String) : Bool :=
  db.any (fun v => decide (v.email = email))

/-- `tokenRepository.Create`: INSERT, failing on the unique refresh_token index. -/
def postgres.tokenRepository.Create (db : postgres.TokenDB) (t : entity.Token) :
    Except Unit postgres.TokenDB :=
  if db.any (fun r => decide (r.refreshToken = t.refreshToken)) then .error ()
  else .ok (db ++ [t])

/-- `tokenRepository.DeleteByRefreshToken` (src/unnamed/part_012 lines 75-82):
`DELETE WHERE refresh_token = ?`; no error when no row matches. -/
def postgres.tokenRepository.DeleteByRefreshToken (db : postgres.TokenDB)
    (refreshToken : service.SignedToken) : postgres.TokenDB :=
  db.filter (fun r => decide (r.refreshToken ≠ refreshToken))

/-- `tokenRepository.RevokeAllUserTokens` (src/unnamed/part_012 lines
116-124): `UPDATE tokens SET expires_at = now - 1h WHERE user_id = ?`. -/
def postgres.tokenRepository.RevokeAllUserTokens (db : postgres.TokenDB)
    (userID : String) (now : Int) : postgres.TokenDB :=
  db.map (fun r => if r.userID = userID then { r with expiresAt := now - 3600 } else r)

/-- `tokenRepository.IsTokenValid` (src/unnamed/part_012 lines 127-136):
`count(*) WHERE refresh_token = ? AND expires_at > now` is positive. -/
def postgres.tokenRepository.IsTokenValid (db : postgres.TokenDB)
    (refreshToken : service.SignedToken) (now : Int) : Bool :=
  db.any (fun r => decide (r.refreshToken = refreshToken ∧ r.expiresAt > now))

/-! ## internal/application/dto (auth_dto.go) -/

structure dto.RegisterRequest where
  email : String
  password : String
  name : String
deriving DecidableEq, Repr

structure dto.LoginRequest where
  email : String
  password : String
deriving DecidableEq, Repr

/-- `dto.AuthResponse`. The `User` field of the Go response is a formatting
(`ToUserResponse`) of the entity; the entity itself stands for it here. -/
structure dto.AuthResponse where
  user : entity.User
  accessToken : service.SignedToken
  refreshToken : service.SignedToken
  tokenType : String
  expiresIn : Int
deriving DecidableEq, Repr

/-- `dto.ToAuthResponse`. -/
def dto.ToAuthResponse (user : entity.User)
    (accessToken refreshToken : service.SignedToken) (expiresIn : Int) :
    dto.AuthResponse :=
  { user := user, accessToken := accessToken, refreshToken := refreshToken
    tokenType := "Bearer", expiresIn := expiresIn }

/-! ## internal/application/usecase: the session orchestrator

Each use case's distinct Go error values become one error enumeration. -/

inductive usecase.AuthError
  | emailAlreadyExists
  | hashFailed (e : service.PasswordError)
  | invalidUserData (e : entity.ValidationError)
  | userCreateFailed
  | invalidCredentials
  | oauthLoginRequired
  | tokenStoreFailed
  | invalidRefreshToken (e : service.TokenError)
  | revokedOrExpired
  | userNotFound
  | emailNotVerified
deriving DecidableEq, Repr

structure usecase.RegisterResult where
  outcome : Except usecase.AuthError dto.AuthResponse
  users : postgres.UserDB
  tokens : postgres.TokenDB

/-- The user record `RegisterUseCase.Execute` builds:
`entity.NewUser(req.Email, req.Name, RoleUser)` then `SetPassword`. -/
def usecase.RegisterUseCase.newUser (uuid : String) (now : Int)
    (req : dto.RegisterRequest) (hashedPassword : bcrypt.Hash) : entity.User :=
  (entity.NewUser uuid now req.email req.name .USER).SetPassword now hashedPassword

/-- `RegisterUseCase.Execute` (src/unnamed/part_009 lines 35-83). The use
case holds no token repository: it generates the refresh token but never
stores it, so `tokens` passes through unchanged on every path. -/
def usecase.RegisterUseCase.Execute (ps : service.passwordService)
    (ts : service.tokenService) (uuid : String) (now : Int)
    (users : postgres.UserDB) (tokens : postgres.TokenDB)
    (req : dto.RegisterRequest) : usecase.RegisterResult :=
  if postgres.userRepository.EmailExists users req.email then
    ⟨.error .emailAlreadyExists, users, tokens⟩
  else
    match ps.HashPassword req.password with
    | .error e => ⟨.error (.hashFailed e), users, tokens⟩
    | .ok hashedPassword =>
      match (usecase.RegisterUseCase.newUser uuid now req hashedPassword).Validate with
      | .error e => ⟨.error (.invalidUserData e), users, tokens⟩
      | .ok _ =>
        match postgres.userRepository.Create users
          (usecase.RegisterUseCase.newUser uuid now req hashedPassword) with
        | .error _ => ⟨.error .userCreateFailed, users, tokens⟩
        | .ok users2 =>
          ⟨.ok (dto.ToAuthResponse
              (usecase.RegisterUseCase.newUser uuid now req hashedPassword)
              (ts.GenerateAccessToken now
                (usecase.RegisterUseCase.newUser uuid now req hashedPassword).id
                (usecase.RegisterUseCase.newUser uuid now req hashedPassword).email
                (usecase.RegisterUseCase.newUser uuid now req hashedPassword).role.str)
              (ts.GenerateRefreshToken now
                (usecase.RegisterUseCase.newUser uuid now req hashedPassword).id
                (usecase.RegisterUseCase.newUser uuid now req hashedPassword).email
                (usecase.RegisterUseCase.newUser uuid now req hashedPassword).role.str)
              (ts.GetTokenExpiration .access)), users2, tokens⟩

structure usecase.LoginResult where
  outcome : Except usecase.AuthError dto.AuthResponse
  tokens : postgres.TokenDB

/-- `LoginUseCase.Execute` (login_usecase.go lines 39-98). `revokeErr`
injects a transport failure of the one `RevokeAllUserTokens` call; the
source logs such a failure and continues ("Log error but don't fail
login"), the table left unchanged by the failed call. -/
def usecase.LoginUseCase.Execute (ps : service.passwordService)
    (ts : service.tokenService) (now : Int)
    (users : postgres.UserDB) (tokens : postgres.TokenDB) (revokeErr : Bool)
    (req : dto.LoginRequest) : usecase.LoginResult :=
  match postgres.userRepository.FindByEmail users req.email with
  | none => ⟨.error .invalidCredentials, tokens⟩
  | some user =>
    if user.IsOAuthUser then ⟨.error .oauthLoginRequired, tokens⟩
    else
      match user.password with
      | none => ⟨.error .invalidCredentials, tokens⟩
      | some hash =>
        if ps.VerifyPassword req.password hash then
          match postgres.tokenRepository.Create
            (if revokeErr then tokens
              else postgres.tokenRepository.RevokeAllUserTokens tokens user.id now)
            (entity.NewToken user.id
              (ts.GenerateRefreshToken now user.id user.email user.role.str)
              (now + ts.GetTokenExpiration .refresh)) with
          | .error _ => ⟨.error .tokenStoreFailed,
              if revokeErr then tokens
                else postgres.tokenRepository.RevokeAllUserTokens tokens user.id now⟩
          | .ok tokens2 =>
            ⟨.ok (dto.ToAuthResponse user
              (ts.GenerateAccessToken now user.id user.email user.role.str)
              (ts.GenerateRefreshToken now user.id user.email user.role.str)
              (ts.GetTokenExpiration .access)), tokens2⟩
        else ⟨.error .invalidCredentials, tokens⟩

structure usecase.RefreshResult where
  outcome : Except usecase.AuthError dto.AuthResponse
  tokens : postgres.TokenDB

/-- `RefreshTokenUseCase.Execute` (src/unnamed/part_007 lines 36-95):
validate crypto, check the store, find the user, delete the old row,
generate and store the new pair. -/
def usecase.RefreshTokenUseCase.Execute (ts : service.tokenService) (now : Int)
    (users : postgres.UserDB) (tokens : postgres.TokenDB)
    (refreshToken : service.SignedToken) : usecase.RefreshResult :=
  match ts.ValidateRefreshToken now refreshToken with
  | .error e => ⟨.error (.invalidRefreshToken e), tokens⟩
  | .ok claims =>
    if postgres.tokenRepository.IsTokenValid tokens refreshToken now then
      match postgres.userRepository.FindByID users claims.userID with
      | none => ⟨.error .userNotFound, tokens⟩
      | some user =>
        match postgres.tokenRepository.Create
          (postgres.tokenRepository.DeleteByRefreshToken tokens refreshToken)
          (entity.NewToken user.id
            (ts.GenerateRefreshToken now user.id user.email user.role.str)
            (now + ts.GetTokenExpiration .refresh)) with
        | .error _ => ⟨.error .tokenStoreFailed,
            postgres.tokenRepository.DeleteByRefreshToken tokens refreshToken⟩
        | .ok tokens2 =>
          ⟨.ok (dto.ToAuthResponse user
            (ts.GenerateAccessToken now user.id user.email user.role.str)
            (ts.GenerateRefreshToken now user.id user.email user.role.str)
            (ts.GetTokenExpiration .access)), tokens2⟩
    else ⟨.error .revokedOrExpired, tokens⟩

/-- `GoogleUserInfo` (src/unnamed/part_008 lines 16-22). -/
structure usecase.GoogleUserInfo where
  id : String
  email : String
  name : String
  avatar : String
  verifiedEmail : Bool
deriving DecidableEq, Repr

structure usecase.GoogleAuthResult where
  outcome : Except usecase.AuthError dto.AuthResponse
  users : postgres.UserDB
  tokens : postgres.TokenDB

/-- The tail of `GoogleAuthUseCase.Execute` (src/unnamed/part_008 lines
108-141) once the user is resolved: revoke all the user's sessions (a
failure of that call is ignored, as in the source), generate the pair,
store the refresh session. -/
def usecase.GoogleAuthUseCase.finish (ts : service.tokenService) (now : Int)
    (users : postgres.UserDB) (tokens : postgres.TokenDB) (revokeErr : Bool)
    (user : entity.User) : usecase.GoogleAuthResult :=
  match postgres.tokenRepository.Create
    (if revokeErr then tokens
      else postgres.tokenRepository.RevokeAllUserTokens tokens user.id now)
    (entity.NewToken user.id
      (ts.GenerateRefreshToken now user.id user.email user.role.str)
      (now + ts.GetTokenExpiration .refresh)) with
  | .error _ => ⟨.error .tokenStoreFailed, users,
      if revokeErr then tokens
        else postgres.tokenRepository.RevokeAllUserTokens tokens user.id now⟩
  | .ok tokens2 =>
    ⟨.ok (dto.ToAuthResponse user
      (ts.GenerateAccessToken now user.id user.email user.role.str)
      (ts.GenerateRefreshToken now user.id user.email user.role.str)
      (ts.GetTokenExpiration .access)), users, tokens2⟩

/-- The in-place account-merge mutation of `GoogleAuthUseCase.Execute`
(src/unnamed/part_008 lines 69-76): attach the Google provider and external
id, take the Google avatar whenever it is non-empty, mark the email
verified. Password, role, email and name are not touched. -/
def usecase.GoogleAuthUseCase.mergedUser (user : entity.User)
    (googleUser : usecase.GoogleUserInfo) (now : Int) : entity.User :=
  { user with
    provider := .GOOGLE
    providerID := some googleUser.id
    avatar := if googleUser.avatar = "" then user.avatar else some googleUser.avatar
    emailVerified := true
    updatedAt := now }

/-- The fresh federated user of `GoogleAuthUseCase.Execute` (lines 85-97). -/
def usecase.GoogleAuthUseCase.createdUser (uuid : String) (now : Int)
    (googleUser : usecase.GoogleUserInfo) : entity.User :=
  entity.NewOAuthUser uuid now googleUser.email googleUser.name googleUser.id .GOOGLE
    (if googleUser.avatar = "" then none else some googleUser.avatar)

/-- `GoogleAuthUseCase.Execute` (src/unnamed/part_008 lines 45-142):
resolution by (provider, externalID), else by email with account merge,
else creation of a fresh federated user; then `finish`. -/
def usecase.GoogleAuthUseCase.Execute (ts : service.tokenService) (uuid : String)
    (now : Int) (users : postgres.UserDB) (tokens : postgres.TokenDB)
    (revokeErr : Bool) (googleUser : usecase.GoogleUserInfo) :
    usecase.GoogleAuthResult :=
  if ¬ googleUser.verifiedEmail then ⟨.error .emailNotVerified, users, tokens⟩
  else
    match postgres.userRepository.FindByProviderID users .GOOGLE googleUser.id with
    | some user => usecase.GoogleAuthUseCase.finish ts now users tokens revokeErr user
    | none =>
      match postgres.userRepository.FindByEmail users googleUser.email with
      | some user =>
        if user.provider ≠ .GOOGLE then
          usecase.GoogleAuthUseCase.finish ts now
            (postgres.userRepository.Update users
              (usecase.GoogleAuthUseCase.mergedUser user googleUser now))
            tokens revokeErr (usecase.GoogleAuthUseCase.mergedUser user googleUser now)
        else usecase.GoogleAuthUseCase.finish ts now users tokens revokeErr user
      | none =>
        match (usecase.GoogleAuthUseCase.createdUser uuid now googleUser).Validate with
        | .error e => ⟨.error (.invalidUserData e), users, tokens⟩
        | .ok _ =>
          match postgres.userRepository.Create users
            (usecase.GoogleAuthUseCase.createdUser uuid now googleUser) with
          | .error _ => ⟨.error .userCreateFailed, users, tokens⟩
          | .ok users2 =>
            usecase.GoogleAuthUseCase.finish ts now users2 tokens revokeErr
              (usecase.GoogleAuthUseCase.createdUser uuid now googleUser)

/-- `Except.isOk`-style helper for failure statements. -/
def exceptIsOk : Except ε α → Bool
  | .ok _ => true
  | .error _ => false

/-! ## Concrete fixtures used by witnesses and counterexamples -/

def fx.ps : service.passwordService := { cost := 10 }

def fx.ts : service.tokenService :=
  { secretKey := "k", accessExpiry := 900, refreshExpiry := 604800 }

def fx.hash1 : bcrypt.Hash := { cost := 10, key := "password1" }

def fx.u1 : entity.User :=
  (entity.NewUser "id1" 0 "u@x.com" "Uu" .USER).SetPassword 0 fx.hash1

/-- A user already linked to Google (external id "g1"). -/
def fx.ug : entity.User :=
  entity.NewOAuthUser "id2" 0 "g@x.com" "Gg" "g1" .GOOGLE none

def fx.rt0 : service.SignedToken := fx.ts.GenerateRefreshToken 0 "id1" "u@x.com" "USER"

def fx.rt1000 : service.SignedToken :=
  fx.ts.GenerateRefreshToken 1000 "id1" "u@x.com" "USER"

def fx.row1000 : entity.Token := entity.NewToken "id1" fx.rt1000 605800

def fx.register1 : usecase.RegisterResult :=
  usecase.RegisterUseCase.Execute fx.ps fx.ts "id1" 0 [] []
    { email := "u@x.com", password := "password1", name := "Uu" }

def fx.pw73 : String := String.mk (List.replicate 73 'a')

def fx.uAvatar : entity.User := { fx.u1 with avatar := some "old.png" }

def fx.google1 : usecase.GoogleUserInfo :=
  { id := "g1", email := "u@x.com", name := "Uu", avatar := "g.png", verifiedEmail := true }

/-- The record the Google merge of `fx.uAvatar` with `fx.google1` leaves in
the user table: provider/external id attached, avatar replaced by the
federated "g.png", email verified. -/
def fx.uMerged : entity.User :=
  { fx.uAvatar with
    provider := .GOOGLE
    providerID := some "g1"
    avatar := some "g.png"
    emailVerified := true
    updatedAt := 10 }

/-- A token whose header declares `alg: none`; its claims are a
well-formed refresh claim set. -/
def fx.forged : service.SignedToken :=
  { alg := .noneAlg, claims := fx.rt1000.claims
    sig := ("k", .noneAlg, fx.rt1000.claims) }

/-! ## Helper lemmas -/

theorem any_filter_false {α : Type} (l : List α) (p q : α → Bool)
    (h : l.any q = false) : (l.filter p).any q = false := by
  rw [Bool.eq_false_iff] at h ⊢
  intro hc
  rcases List.any_eq_true.mp hc with ⟨x, hx, hqx⟩
  exact h (List.any_eq_true.mpr ⟨x, (List.mem_filter.mp hx).1, hqx⟩)

/-- After a rotation (delete the presented token's row, insert a row with a
different token), no active row with the presented token remains. -/
theorem isTokenValid_after_rotation (tokens : postgres.TokenDB)
    (t : service.SignedToken) (row : entity.Token) (now2 : Int)
    (hrow : row.refreshToken ≠ t) :
    postgres.tokenRepository.IsTokenValid
      (postgres.tokenRepository.DeleteByRefreshToken tokens t ++ [row]) t now2 = false := by
  unfold postgres.tokenRepository.IsTokenValid postgres.tokenRepository.DeleteByRefreshToken
  rw [List.any_append, Bool.or_eq_false_iff]
  constructor
  · rw [Bool.eq_false_iff]
    intro hc
    rcases List.any_eq_true.mp hc with ⟨x, hx, hqx⟩
    have hne := (List.mem_filter.mp hx).2
    rw [decide_eq_true_eq] at hne hqx
    exact hne hqx.1
  · simp [hrow]

/-- `GoogleAuthUseCase.finish` never touches the user table. -/
theorem googleFinish_users (ts : service.tokenService) (now : Int)
    (users : postgres.UserDB) (tokens : postgres.TokenDB) (revokeErr : Bool)
    (user : entity.User) :
    (usecase.GoogleAuthUseCase.finish ts now users tokens revokeErr user).users = users := by
  unfold usecase.GoogleAuthUseCase.finish
  split <;> rfl

/-- `validateToken` never succeeds on a token whose embedded kind differs
from the expected kind: every branch before the kind check is an error, and
the kind check itself then fails. -/
theorem validateToken_wrong_type (s : service.tokenService) (now : Int)
    (tok : service.SignedToken) (expected : service.TokenType)
    (h : tok.claims.tokenType ≠ expected) :
    exceptIsOk (s.validateToken now tok expected) = false := by
  unfold service.tokenService.validateToken
  split_ifs with h1 h2 h3 h4 <;> rfl

/-- On every path, `LoginUseCase.Execute` either leaves the token table
unchanged, or fails storing the new session, or succeeds. -/
theorem login_frame_cases (ps : service.passwordService) (ts : service.tokenService)
    (now : Int) (users : postgres.UserDB) (tokens : postgres.TokenDB)
    (revokeErr : Bool) (req : dto.LoginRequest) :
    (usecase.LoginUseCase.Execute ps ts now users tokens revokeErr req).tokens = tokens ∨
    (usecase.LoginUseCase.Execute ps ts now users tokens revokeErr req).outcome =
      .error .tokenStoreFailed ∨
    exceptIsOk (usecase.LoginUseCase.Execute ps ts now users tokens revokeErr req).outcome
      = true := by
  unfold usecase.LoginUseCase.Execute
  split
  · exact Or.inl rfl
  split
  · exact Or.inl rfl
  split
  · exact Or.inl rfl
  split
  · split
    · exact Or.inr (Or.inl rfl)
    · exact Or.inr (Or.inr rfl)
  · exact Or.inl rfl

/-! ## Claim theorems -/

/-- C1: `RegisterUseCase` holds no token repository, so a successful
Register leaves the session store exactly as it was (here: empty) while
returning a refresh token; presenting that cryptographically valid token to
Refresh then fails with RevokedOrExpired, i.e. the token Register issues is
never redeemable — contrary to the claim that Register persists the
session. -/
theorem register_refresh_token_not_redeemable :
    exceptIsOk fx.register1.outcome = true ∧
    fx.register1.tokens = [] ∧
    fx.ts.ValidateRefreshToken 1 fx.rt0 = .ok fx.rt0.claims ∧
    (usecase.RefreshTokenUseCase.Execute fx.ts 1 fx.register1.users
      fx.register1.tokens fx.rt0).outcome = .error .revokedOrExpired :=
  ⟨rfl, rfl, rfl, rfl⟩

/-- C6: the password policy of the code accepts any length in [8,128], but
bcrypt's GenerateFromPassword rejects passwords over 72 bytes, so
HashPassword fails on the 73-character password even though the code's own
ValidatePassword accepts it — the claimed "hash(p) succeeds" fails for
lengths 73..128. -/
theorem hash_password_rejects_length_73 :
    fx.pw73.length = 73 ∧
    fx.ps.ValidatePassword fx.pw73 = .ok () ∧
    fx.ps.HashPassword fx.pw73 = .error .bcryptFailure :=
  ⟨rfl, rfl, rfl⟩

/-- C7: a token issued as a refresh token never validates through the
access-token validator and a token issued as an access token never
validates through the refresh-token validator, whatever the service
configuration, issue time and validation time: the wrong-kind (or
expired) case always ends in a validation failure. -/
theorem token_kind_isolation (ts : service.tokenService) (nowGen nowVal : Int)
    (userID email role : String) :
    exceptIsOk (ts.ValidateAccessToken nowVal
      (ts.GenerateRefreshToken nowGen userID email role)) = false ∧
    exceptIsOk (ts.ValidateRefreshToken nowVal
      (ts.GenerateAccessToken nowGen userID email role)) = false := by
  constructor
  · exact validateToken_wrong_type ts nowVal
      (ts.GenerateRefreshToken nowGen userID email role) .access
      (fun hc => service.TokenType.noConfusion hc)
  · exact validateToken_wrong_type ts nowVal
      (ts.GenerateAccessToken nowGen userID email role) .refresh
      (fun hc => service.TokenType.noConfusion hc)

/-- C9: any token whose header algorithm is not an HMAC method (for
example `alg: none` or RS256) is rejected by the keyfunc before signature
or claim checks, so neither the access-token validator nor the
refresh-token validator ever accepts it, whatever its claims. -/
theorem non_hmac_token_rejected (ts : service.tokenService) (now : Int)
    (tok : service.SignedToken) (halg : tok.alg.isHMAC = false) :
    exceptIsOk (ts.ValidateAccessToken now tok) = false ∧
    exceptIsOk (ts.ValidateRefreshToken now tok) = false := by
  constructor <;>
    simp [service.tokenService.ValidateAccessToken,
      service.tokenService.ValidateRefreshToken,
      service.tokenService.validateToken, halg, exceptIsOk]

/-- C9 witness: a forged token carrying well-formed refresh claims but
`alg: none` is rejected by both validators. -/
theorem non_hmac_token_rejected_witness :
    exceptIsOk (fx.ts.ValidateAccessToken 1000 fx.forged) = false ∧
    exceptIsOk (fx.ts.ValidateRefreshToken 1000 fx.forged) = false :=
  non_hmac_token_rejected fx.ts 1000 fx.forged rfl

/-- C10: when the refresh token is cryptographically valid and active in
the store but the user of its claims no longer exists, Refresh fails with
user-not-found and returns the store unchanged: the user lookup precedes
the delete of the old row, so the presented session record is neither
deleted nor revoked and is still active afterwards. -/
theorem refresh_user_not_found_preserves_session (ts : service.tokenService)
    (now : Int) (users : postgres.UserDB) (tokens : postgres.TokenDB)
    (t : service.SignedToken) (c : service.TokenClaims)
    (hval : ts.ValidateRefreshToken now t = .ok c)
    (hactive : postgres.tokenRepository.IsTokenValid tokens t now = true)
    (huser : postgres.userRepository.FindByID users c.userID = none) :
    usecase.RefreshTokenUseCase.Execute ts now users tokens t =
      ⟨.error .userNotFound, tokens⟩ ∧
    postgres.tokenRepository.IsTokenValid tokens t now = true := by
  refine ⟨?_, hactive⟩
  unfold usecase.RefreshTokenUseCase.Execute
  rw [hval]
  simp [hactive, huser]

/-- C10 witness: a valid active token for user id1 presented against an
empty user table: the call fails user-not-found and the session row stays
in the store, still active. -/
theorem refresh_user_not_found_preserves_session_witness :
    (usecase.RefreshTokenUseCase.Execute fx.ts 1000 [] [fx.row1000] fx.rt1000 =
      ⟨.error .userNotFound, [fx.row1000]⟩) ∧
    postgres.tokenRepository.IsTokenValid [fx.row1000] fx.rt1000 1000 = true :=
  refresh_user_not_found_preserves_session fx.ts 1000 [] [fx.row1000] fx.rt1000
    fx.rt1000.claims rfl rfl rfl

/-- C8: a Login that fails with invalid credentials (unknown email, nil
password, password mismatch) or with the OAuth-account rejection returns
the session store exactly as it was: those errors are all raised before
any store write. -/
theorem failed_login_leaves_store (ps : service.passwordService)
    (ts : service.tokenService) (now : Int) (users : postgres.UserDB)
    (tokens : postgres.TokenDB) (revokeErr : Bool) (req : dto.LoginRequest)
    (h : (usecase.LoginUseCase.Execute ps ts now users tokens revokeErr req).outcome =
        .error .invalidCredentials ∨
      (usecase.LoginUseCase.Execute ps ts now users tokens revokeErr req).outcome =
        .error .oauthLoginRequired) :
    (usecase.LoginUseCase.Execute ps ts now users tokens revokeErr req).tokens =
      tokens := by
  rcases login_frame_cases ps ts now users tokens revokeErr req with hu | hs | ho
  · exact hu
  · rcases h with h | h <;> rw [hs] at h <;>
      exact absurd (Except.error.inj h) (by decide)
  · rcases h with h | h <;> rw [h] at ho <;> simp [exceptIsOk] at ho

/-- C8 witness: a login with an unknown email against a one-session store
fails with invalid credentials and leaves the store as it was. -/
theorem failed_login_leaves_store_witness :
    (usecase.LoginUseCase.Execute fx.ps fx.ts 0 [] [fx.row1000] false
      { email := "x@y.com", password := "whatever1" }).tokens = [fx.row1000] :=
  failed_login_leaves_store fx.ps fx.ts 0 [] [fx.row1000] false
    { email := "x@y.com", password := "whatever1" } (Or.inl rfl)

/-- C2 counterexample: with the store's RevokeAllUserTokens call failing
(fault flag set), Login neither aborts nor withholds tokens: it succeeds
and persists the new session while the prior session row stays untouched
(and still active) — refuting the claim that a revocation failure aborts
the login. -/
theorem login_revocation_failure_ignored_cex :
    (usecase.LoginUseCase.Execute fx.ps fx.ts 2000 [fx.u1] [fx.row1000] true
      { email := "u@x.com", password := "password1" }).outcome =
      .ok (dto.ToAuthResponse fx.u1
        (fx.ts.GenerateAccessToken 2000 "id1" "u@x.com" "USER")
        (fx.ts.GenerateRefreshToken 2000 "id1" "u@x.com" "USER") 900) ∧
    (usecase.LoginUseCase.Execute fx.ps fx.ts 2000 [fx.u1] [fx.row1000] true
      { email := "u@x.com", password := "password1" }).tokens =
      [fx.row1000,
        entity.NewToken "id1"
          (fx.ts.GenerateRefreshToken 2000 "id1" "u@x.com" "USER") 606800] :=
  ⟨rfl, rfl⟩

/-- C2 amended: when revoking the identity's prior sessions fails, Login
and FederatedLogin silently ignore the failure and proceed: with the
credentials otherwise valid they succeed, leave the prior rows unrevoked,
and append the newly issued session. -/
theorem login_and_google_ignore_revocation_failure
    (ps : service.passwordService) (ts : service.tokenService) (uuid : String)
    (now : Int) (users : postgres.UserDB) (tokens : postgres.TokenDB)
    (req : dto.LoginRequest) (u : entity.User) (hb : bcrypt.Hash)
    (g : usecase.GoogleUserInfo) (ug : entity.User)
    (hfind : postgres.userRepository.FindByEmail users req.email = some u)
    (hlocal : u.IsOAuthUser = false)
    (hpw : u.password = some hb)
    (hverify : ps.VerifyPassword req.password hb = true)
    (hfresh : tokens.any (fun r => decide (r.refreshToken =
      ts.GenerateRefreshToken now u.id u.email u.role.str)) = false)
    (hgv : g.verifiedEmail = true)
    (hgfind : postgres.userRepository.FindByProviderID users .GOOGLE g.id = some ug)
    (hgfresh : tokens.any (fun r => decide (r.refreshToken =
      ts.GenerateRefreshToken now ug.id ug.email ug.role.str)) = false) :
    (usecase.LoginUseCase.Execute ps ts now users tokens true req =
      ⟨.ok (dto.ToAuthResponse u
          (ts.GenerateAccessToken now u.id u.email u.role.str)
          (ts.GenerateRefreshToken now u.id u.email u.role.str)
          (ts.GetTokenExpiration .access)),
        tokens ++ [entity.NewToken u.id
          (ts.GenerateRefreshToken now u.id u.email u.role.str)
          (now + ts.GetTokenExpiration .refresh)]⟩) ∧
    (usecase.GoogleAuthUseCase.Execute ts uuid now users tokens true g =
      ⟨.ok (dto.ToAuthResponse ug
          (ts.GenerateAccessToken now ug.id ug.email ug.role.str)
          (ts.GenerateRefreshToken now ug.id ug.email ug.role.str)
          (ts.GetTokenExpiration .access)),
        users,
        tokens ++ [entity.NewToken ug.id
          (ts.GenerateRefreshToken now ug.id ug.email ug.role.str)
          (now + ts.GetTokenExpiration .refresh)]⟩) := by
  constructor
  · unfold usecase.LoginUseCase.Execute postgres.tokenRepository.Create
    rw [hfind]
    simp [hlocal, hpw, hverify, entity.NewToken, hfresh]
  · unfold usecase.GoogleAuthUseCase.Execute usecase.GoogleAuthUseCase.finish
      postgres.tokenRepository.Create
    rw [hgfind]
    simp [hgv, entity.NewToken, hgfresh]

/-- C2 witness: concrete Login and FederatedLogin calls with the
revocation call failing still succeed and append the new session. -/
theorem login_and_google_ignore_revocation_failure_witness :
    (usecase.LoginUseCase.Execute fx.ps fx.ts 2000 [fx.u1, fx.ug] [fx.row1000] true
      { email := "u@x.com", password := "password1" } =
      ⟨.ok (dto.ToAuthResponse fx.u1
          (fx.ts.GenerateAccessToken 2000 fx.u1.id fx.u1.email fx.u1.role.str)
          (fx.ts.GenerateRefreshToken 2000 fx.u1.id fx.u1.email fx.u1.role.str)
          (fx.ts.GetTokenExpiration .access)),
        [fx.row1000] ++ [entity.NewToken fx.u1.id
          (fx.ts.GenerateRefreshToken 2000 fx.u1.id fx.u1.email fx.u1.role.str)
          (2000 + fx.ts.GetTokenExpiration .refresh)]⟩) ∧
    (usecase.GoogleAuthUseCase.Execute fx.ts "idz" 2000 [fx.u1, fx.ug] [fx.row1000]
      true fx.google1 =
      ⟨.ok (dto.ToAuthResponse fx.ug
          (fx.ts.GenerateAccessToken 2000 fx.ug.id fx.ug.email fx.ug.role.str)
          (fx.ts.GenerateRefreshToken 2000 fx.ug.id fx.ug.email fx.ug.role.str)
          (fx.ts.GetTokenExpiration .access)),
        [fx.u1, fx.ug],
        [fx.row1000] ++ [entity.NewToken fx.ug.id
          (fx.ts.GenerateRefreshToken 2000 fx.ug.id fx.ug.email fx.ug.role.str)
          (2000 + fx.ts.GetTokenExpiration .refresh)]⟩) :=
  login_and_google_ignore_revocation_failure fx.ps fx.ts "idz" 2000
    [fx.u1, fx.ug] [fx.row1000] { email := "u@x.com", password := "password1" }
    fx.u1 fx.hash1 fx.google1 fx.ug rfl rfl rfl rfl rfl rfl rfl rfl

/-- C3 counterexample: a refresh in the same second the presented token was
issued regenerates the byte-identical token (the claims, issued-at
included, coincide and HS256 signing is deterministic): the call succeeds
but returns the very input token, the store again holds that token, and
redeeming it a second time succeeds as well — refuting both the
rotation-distinctness and the single-use part of the claim. -/
theorem refresh_same_second_rotation_cex :
    (usecase.RefreshTokenUseCase.Execute fx.ts 1000 [fx.u1] [fx.row1000]
      fx.rt1000).outcome =
      .ok (dto.ToAuthResponse fx.u1
        (fx.ts.GenerateAccessToken 1000 "id1" "u@x.com" "USER") fx.rt1000 900) ∧
    (usecase.RefreshTokenUseCase.Execute fx.ts 1000 [fx.u1] [fx.row1000]
      fx.rt1000).tokens = [fx.row1000] ∧
    exceptIsOk (usecase.RefreshTokenUseCase.Execute fx.ts 1000 [fx.u1]
      (usecase.RefreshTokenUseCase.Execute fx.ts 1000 [fx.u1] [fx.row1000]
        fx.rt1000).tokens fx.rt1000).outcome = true :=
  ⟨rfl, rfl, rfl⟩

/-- C3 amended: redeeming a cryptographically valid, store-active refresh
token succeeds and rotates the session; whenever the rotation happens at a
time distinct from the token's issued-at second (token contents are
deterministic in the claims), the new refresh token differs from the input,
and redeeming the input token again (while it is still cryptographically
valid) fails with RevokedOrExpired. -/
theorem refresh_rotation_distinct_and_single_use (ts : service.tokenService)
    (now now2 : Int) (users : postgres.UserDB) (tokens : postgres.TokenDB)
    (t : service.SignedToken) (u : entity.User)
    (hval : ts.ValidateRefreshToken now t = .ok t.claims)
    (hactive : postgres.tokenRepository.IsTokenValid tokens t now = true)
    (huser : postgres.userRepository.FindByID users t.claims.userID = some u)
    (hiat : t.claims.issuedAt ≠ now)
    (hfresh : tokens.any (fun r => decide (r.refreshToken =
      ts.GenerateRefreshToken now u.id u.email u.role.str)) = false)
    (hval2 : ts.ValidateRefreshToken now2 t = .ok t.claims) :
    (usecase.RefreshTokenUseCase.Execute ts now users tokens t =
      ⟨.ok (dto.ToAuthResponse u
          (ts.GenerateAccessToken now u.id u.email u.role.str)
          (ts.GenerateRefreshToken now u.id u.email u.role.str)
          (ts.GetTokenExpiration .access)),
        postgres.tokenRepository.DeleteByRefreshToken tokens t ++
          [entity.NewToken u.id (ts.GenerateRefreshToken now u.id u.email u.role.str)
            (now + ts.GetTokenExpiration .refresh)]⟩) ∧
    ts.GenerateRefreshToken now u.id u.email u.role.str ≠ t ∧
    (usecase.RefreshTokenUseCase.Execute ts now2 users
      (usecase.RefreshTokenUseCase.Execute ts now users tokens t).tokens t).outcome =
      .error .revokedOrExpired := by
  have hne : ts.GenerateRefreshToken now u.id u.email u.role.str ≠ t := by
    intro heq
    apply hiat
    rw [← heq]
    rfl
  have hany : (postgres.tokenRepository.DeleteByRefreshToken tokens t).any
      (fun r => decide (r.refreshToken =
        ts.GenerateRefreshToken now u.id u.email u.role.str)) = false := by
    unfold postgres.tokenRepository.DeleteByRefreshToken
    exact any_filter_false tokens _ _ hfresh
  have hexec : usecase.RefreshTokenUseCase.Execute ts now users tokens t =
      ⟨.ok (dto.ToAuthResponse u
          (ts.GenerateAccessToken now u.id u.email u.role.str)
          (ts.GenerateRefreshToken now u.id u.email u.role.str)
          (ts.GetTokenExpiration .access)),
        postgres.tokenRepository.DeleteByRefreshToken tokens t ++
          [entity.NewToken u.id (ts.GenerateRefreshToken now u.id u.email u.role.str)
            (now + ts.GetTokenExpiration .refresh)]⟩ := by
    unfold usecase.RefreshTokenUseCase.Execute postgres.tokenRepository.Create
    rw [hval]
    simp [hactive, huser, entity.NewToken, hany]
  have hvalid2 : postgres.tokenRepository.IsTokenValid
      (postgres.tokenRepository.DeleteByRefreshToken tokens t ++
        [entity.NewToken u.id (ts.GenerateRefreshToken now u.id u.email u.role.str)
          (now + ts.GetTokenExpiration .refresh)]) t now2 = false :=
    isTokenValid_after_rotation tokens t _ now2 hne
  refine ⟨hexec, hne, ?_⟩
  rw [hexec]
  unfold usecase.RefreshTokenUseCase.Execute
  rw [hval2]
  simp [hvalid2]

/-- C3 witness: the rotation at second 1001 of a token issued at second
1000 succeeds, yields a distinct token, and the original token is then
rejected as revoked at second 1002. -/
theorem refresh_rotation_distinct_and_single_use_witness :
    (usecase.RefreshTokenUseCase.Execute fx.ts 1001 [fx.u1] [fx.row1000] fx.rt1000 =
      ⟨.ok (dto.ToAuthResponse fx.u1
          (fx.ts.GenerateAccessToken 1001 fx.u1.id fx.u1.email fx.u1.role.str)
          (fx.ts.GenerateRefreshToken 1001 fx.u1.id fx.u1.email fx.u1.role.str)
          (fx.ts.GetTokenExpiration .access)),
        postgres.tokenRepository.DeleteByRefreshToken [fx.row1000] fx.rt1000 ++
          [entity.NewToken fx.u1.id
            (fx.ts.GenerateRefreshToken 1001 fx.u1.id fx.u1.email fx.u1.role.str)
            (1001 + fx.ts.GetTokenExpiration .refresh)]⟩) ∧
    fx.ts.GenerateRefreshToken 1001 fx.u1.id fx.u1.email fx.u1.role.str ≠ fx.rt1000 ∧
    (usecase.RefreshTokenUseCase.Execute fx.ts 1002 [fx.u1]
      (usecase.RefreshTokenUseCase.Execute fx.ts 1001 [fx.u1] [fx.row1000]
        fx.rt1000).tokens fx.rt1000).outcome = .error .revokedOrExpired :=
  refresh_rotation_distinct_and_single_use fx.ts 1001 1002 [fx.u1] [fx.row1000]
    fx.rt1000 fx.u1 rfl rfl rfl (by decide) rfl rfl

/-- C4 counterexample: after Register("u@x.com", ...), a second Register
with the cased variant "U@X.com" passes the raw-string EmailExists check,
normalizes the email on construction, and fails only at the store's unique
email index: the outcome is the generic user-create failure, not
DuplicateEmail. -/
theorem register_case_variant_duplicate_cex :
    (usecase.RegisterUseCase.Execute fx.ps fx.ts "id2" 1 fx.register1.users
      fx.register1.tokens
      { email := "U@X.com", password := "password1", name := "Vv" }).outcome =
      .error .userCreateFailed ∧
    (usecase.RegisterUseCase.Execute fx.ps fx.ts "id2" 1 fx.register1.users
      fx.register1.tokens
      { email := "U@X.com", password := "password1", name := "Vv" }).outcome ≠
      .error .emailAlreadyExists :=
  ⟨rfl, fun hcon => usecase.AuthError.noConfusion (Except.error.inj hcon)⟩

/-- C4 amended: when the store already holds a user whose (normalized)
email equals the normalization of the new request's email but the raw
request string matches no stored row, the second Register fails — with the
generic user-create error from the unique email index, not with
DuplicateEmail — and changes nothing. DuplicateEmail is produced only when
the raw request email matches a stored email byte for byte. -/
theorem register_normalized_duplicate_generic_failure
    (ps : service.passwordService) (ts : service.tokenService) (uuid : String)
    (now : Int) (users : postgres.UserDB) (tokens : postgres.TokenDB)
    (req : dto.RegisterRequest) (u : entity.User) (bh : bcrypt.Hash)
    (hmem : u ∈ users)
    (hnorm : u.email = strings.ToLower (strings.TrimSpace req.email))
    (hraw : postgres.userRepository.EmailExists users req.email = false)
    (hhash : ps.HashPassword req.password = .ok bh)
    (hvalid : (usecase.RegisterUseCase.newUser uuid now req bh).Validate = .ok ()) :
    usecase.RegisterUseCase.Execute ps ts uuid now users tokens req =
      ⟨.error .userCreateFailed, users, tokens⟩ := by
  have hemail : (usecase.RegisterUseCase.newUser uuid now req bh).email =
      strings.ToLower (strings.TrimSpace req.email) := by
    unfold usecase.RegisterUseCase.newUser entity.User.SetPassword entity.NewUser
    split <;> rfl
  have hany : users.any (fun v => decide (v.email =
      (usecase.RegisterUseCase.newUser uuid now req bh).email)) = true :=
    List.any_eq_true.mpr ⟨u, hmem, by rw [hemail, ← hnorm]; simp⟩
  unfold usecase.RegisterUseCase.Execute postgres.userRepository.Create
  simp [hraw, hhash, hvalid, hany]

/-- C4 witness: registering "U@X.com" while "u@x.com" is stored fails with
the generic create error and leaves both tables unchanged. -/
theorem register_normalized_duplicate_generic_failure_witness :
    usecase.RegisterUseCase.Execute fx.ps fx.ts "id2" 1 [fx.u1] []
      { email := "U@X.com", password := "password1", name := "Vv" } =
      ⟨.error .userCreateFailed, [fx.u1], []⟩ :=
  register_normalized_duplicate_generic_failure fx.ps fx.ts "id2" 1 [fx.u1] []
    { email := "U@X.com", password := "password1", name := "Vv" } fx.u1 fx.hash1
    (by decide) rfl rfl rfl rfl

/-- C5 counterexample: merging a Google login into a local identity that
already has an avatar overwrites that avatar with the federated one
("old.png" becomes "g.png"), refuting the claim that the federated avatar
is adopted only if the identity has none. -/
theorem google_merge_overwrites_avatar_cex :
    (usecase.GoogleAuthUseCase.Execute fx.ts "id9" 10 [fx.uAvatar] [] false
      fx.google1).users = [fx.uMerged] ∧
    fx.uAvatar.avatar = some "old.png" ∧
    fx.uMerged.avatar = some "g.png" ∧
    some ("g.png" : String) ≠ some ("old.png" : String) :=
  ⟨rfl, rfl, rfl, by decide⟩

/-- C5 amended: the merge attaches the Google provider and external id,
marks the email verified, and leaves the password hash and role unchanged;
the federated avatar is adopted whenever the provider supplies a non-empty
one (replacing any existing avatar), and only an empty federated avatar
leaves the existing avatar in place. -/
theorem google_merge_updates_fields (ts : service.tokenService) (uuid : String)
    (now : Int) (users : postgres.UserDB) (tokens : postgres.TokenDB)
    (revokeErr : Bool) (g : usecase.GoogleUserInfo) (u : entity.User)
    (hgv : g.verifiedEmail = true)
    (hpid : postgres.userRepository.FindByProviderID users .GOOGLE g.id = none)
    (hmail : postgres.userRepository.FindByEmail users g.email = some u)
    (hprov : u.provider ≠ .GOOGLE) :
    (usecase.GoogleAuthUseCase.Execute ts uuid now users tokens revokeErr g).users =
      postgres.userRepository.Update users
        (usecase.GoogleAuthUseCase.mergedUser u g now) ∧
    (usecase.GoogleAuthUseCase.mergedUser u g now).password = u.password ∧
    (usecase.GoogleAuthUseCase.mergedUser u g now).role = u.role ∧
    (usecase.GoogleAuthUseCase.mergedUser u g now).emailVerified = true ∧
    (usecase.GoogleAuthUseCase.mergedUser u g now).provider = .GOOGLE ∧
    (usecase.GoogleAuthUseCase.mergedUser u g now).providerID = some g.id ∧
    (usecase.GoogleAuthUseCase.mergedUser u g now).avatar =
      (if g.avatar = "" then u.avatar else some g.avatar) := by
  refine ⟨?_, rfl, rfl, rfl, rfl, rfl, rfl⟩
  unfold usecase.GoogleAuthUseCase.Execute
  simp only [hgv, hpid, hmail]
  rw [if_pos hprov]
  simp [googleFinish_users]

/-- C5 witness: the concrete merge of a Google login into the local
account with avatar "old.png". -/
theorem google_merge_updates_fields_witness :
    (usecase.GoogleAuthUseCase.Execute fx.ts "id9" 10 [fx.uAvatar] [] false
      fx.google1).users =
      postgres.userRepository.Update [fx.uAvatar]
        (usecase.GoogleAuthUseCase.mergedUser fx.uAvatar fx.google1 10) ∧
    (usecase.GoogleAuthUseCase.mergedUser fx.uAvatar fx.google1 10).password =
      fx.uAvatar.password ∧
    (usecase.GoogleAuthUseCase.mergedUser fx.uAvatar fx.google1 10).role =
      fx.uAvatar.role ∧
    (usecase.GoogleAuthUseCase.mergedUser fx.uAvatar fx.google1 10).emailVerified =
      true ∧
    (usecase.GoogleAuthUseCase.mergedUser fx.uAvatar fx.google1 10).provider =
      .GOOGLE ∧
    (usecase.GoogleAuthUseCase.mergedUser fx.uAvatar fx.google1 10).providerID =
      some fx.google1.id ∧
    (usecase.GoogleAuthUseCase.mergedUser fx.uAvatar fx.google1 10).avatar =
      (if fx.google1.avatar = "" then fx.uAvatar.avatar else some fx.google1.avatar) :=
  google_merge_updates_fields fx.ts "id9" 10 [fx.uAvatar] [] false fx.google1
    fx.uAvatar rfl rfl rfl (by decide)
